import Mathlib

/-!
Verification development for the reflect-journal backend analytics core.

The definitions below are a shallow embedding of the Python source:
  app/services/ai_service.py  (sentiment analysis, theme extraction,
                               daily prompts, writing insights)
  app/api/emotions.py         (emotion update endpoint, suggestions,
                               emotion history patterns)
Machine floats are modelled by exact rationals; Python round(x, n) is
modelled by round-half-to-even on rationals (pyRound1 / pyRound2).
-/

namespace Reflect

/-! String utilities modelling Python str operations. -/

/-- Lowercase a string character by character, modelling str.lower(). -/
def lowerStr (s : String) : String := String.mk (s.data.map Char.toLower)

/-- Helper for whitespace splitting over a character list: accumulate the
current token and emit it at whitespace boundaries. -/
def splitWsAux : List Char → List Char → List String
  | acc, [] => if acc.isEmpty then [] else [String.mk acc.reverse]
  | acc, c :: rest =>
    if c.isWhitespace then
      (if acc.isEmpty then [] else [String.mk acc.reverse]) ++ splitWsAux [] rest
    else
      splitWsAux (c :: acc) rest

/-- Model of Python str.split() with no argument: split on whitespace runs,
dropping empty tokens. -/
def splitWs (s : String) : List String := splitWsAux [] s.data

/-- Character-list substring test: does the needle occur contiguously in the
haystack?  Models the Python expression needle in hay. -/
def containsSub (needle : List Char) : List Char → Bool
  | [] => needle.isEmpty
  | c :: t => needle.isPrefixOf (c :: t) || containsSub needle t

/-- Model of the Python membership test on strings: needle in hay. -/
def inStr (needle hay : String) : Bool := containsSub needle.data hay.data

/-- Round-half-to-even on rationals, the semantics of Python round()
restricted to exact values (IEEE representation error is abstracted away;
no theorem below depends on a tie case). -/
def roundHalfEven (q : ℚ) : ℤ :=
  let fl := ⌊q⌋
  let fr := q - fl
  if fr < 1/2 then fl
  else if 1/2 < fr then fl + 1
  else if fl % 2 = 0 then fl else fl + 1

/-- Model of Python round(q, 1). -/
def pyRound1 (q : ℚ) : ℚ := (roundHalfEven (q * 10) : ℚ) / 10

/-- Model of Python round(q, 2). -/
def pyRound2 (q : ℚ) : ℚ := (roundHalfEven (q * 100) : ℚ) / 100

/-! Sentiment analyzer: AIService.analyze_sentiment. -/

/-- Positive keyword lexicon, ai_service.py lines 116-120. -/
def positive_words : List String :=
  ["happy", "joy", "excited", "grateful", "love", "wonderful", "amazing",
   "great", "good", "fantastic", "excellent", "blessed", "thankful",
   "peaceful", "calm", "content", "satisfied", "proud", "accomplished"]

/-- Negative keyword lexicon, ai_service.py lines 122-126. -/
def negative_words : List String :=
  ["sad", "angry", "frustrated", "worried", "anxious", "stressed", "tired",
   "exhausted", "disappointed", "hurt", "lonely", "scared", "overwhelmed",
   "depressed", "upset", "terrible", "awful", "horrible", "bad"]

/-- text.lower().split(), the tokenisation shared by the analyzers. -/
def tokenize (text : String) : List String := splitWs (lowerStr text)

/-- Number of tokens containing some positive keyword as a substring. -/
def positiveCount (text : String) : Nat :=
  (tokenize text).countP (fun w => positive_words.any (fun kw => inStr kw w))

/-- Number of tokens containing some negative keyword as a substring. -/
def negativeCount (text : String) : Nat :=
  (tokenize text).countP (fun w => negative_words.any (fun kw => inStr kw w))

/-- The sentiment score before presentation rounding, ai_service.py
lines 135-139: 0 for an empty token list, otherwise
(pos - neg) / (pos + neg + 1). -/
def sentimentScore (text : String) : ℚ :=
  let p := positiveCount text
  let n := negativeCount text
  if (tokenize text).length = 0 then 0
  else ((p : ℚ) - (n : ℚ)) / ((p : ℚ) + (n : ℚ) + 1)

structure SentimentResult where
  sentiment_score : ℚ
  primary_emotion : String
  secondary_emotion : String
  positive_word_count : Nat
  negative_word_count : Nat
  deriving DecidableEq

/-- AIService.analyze_sentiment: classification happens on the unrounded
score; the returned score field carries round(score, 2). -/
def analyze_sentiment (text : String) : SentimentResult :=
  let s := sentimentScore text
  if s > 3/10 then
    ⟨pyRound2 s, "positive", "content", positiveCount text, negativeCount text⟩
  else if s < -(3/10) then
    ⟨pyRound2 s, "negative", "concerned", positiveCount text, negativeCount text⟩
  else
    ⟨pyRound2 s, "neutral", "reflective", positiveCount text, negativeCount text⟩

/-! Theme extractor: AIService.extract_themes. -/

/-- Theme keyword table, ai_service.py lines 168-178, in source insertion
order (the tie-break order of the stable sort). -/
def theme_keywords : List (String × List String) :=
  [("work", ["work", "job", "career", "office", "meeting", "project",
             "deadline", "colleague", "boss"]),
   ("relationships", ["friend", "family", "love", "partner", "relationship",
                      "mom", "dad", "wife", "husband"]),
   ("health", ["health", "exercise", "workout", "sick", "doctor", "sleep",
               "tired", "energy", "meditation"]),
   ("personal_growth", ["learn", "grow", "challenge", "improve", "goal",
                        "achievement", "progress", "development"]),
   ("creativity", ["create", "art", "write", "music", "design", "idea",
                   "inspiration", "imagine"]),
   ("nature", ["nature", "outside", "walk", "sun", "rain", "tree", "park",
               "weather"]),
   ("gratitude", ["grateful", "thankful", "appreciate", "blessed",
                  "fortunate", "gratitude"]),
   ("stress", ["stress", "anxious", "worry", "pressure", "overwhelm",
               "busy", "rush"]),
   ("leisure", ["relax", "fun", "enjoy", "hobby", "read", "watch", "play",
                "vacation"])]

/-- Token list of the joined entry contents:
" ".join(contents).lower().split(). -/
def allWords (entries : List String) : List String :=
  tokenize (String.intercalate " " entries)

/-- Per-theme token counts, keeping only nonzero themes, in table order
(dict insertion order in the source). -/
def themeCounts (entries : List String) : List (String × Nat) :=
  (theme_keywords.map (fun tk =>
    (tk.1, (allWords entries).countP (fun w => tk.2.any (fun kw => inStr kw w))))).filter
    (fun p => p.2 != 0)

/-- Descending-count order used by the stable sort of themes. -/
def cntRel (a b : String × Nat) : Prop := b.2 ≤ a.2

instance : DecidableRel cntRel := fun a b => Nat.decLe b.2 a.2

instance : IsTotal (String × Nat) cntRel :=
  ⟨fun a b => (le_total b.2 a.2).imp id id⟩

instance : IsTrans (String × Nat) cntRel :=
  ⟨fun _ _ _ h1 h2 => le_trans h2 h1⟩

/-- sorted(theme_counts.items(), key=count, reverse=True): Python sorted is
stable, as is insertion sort with a non-strict order. -/
def sortedThemeCounts (entries : List String) : List (String × Nat) :=
  List.insertionSort cntRel (themeCounts entries)

/-- The top-5 slice returned to the caller. -/
def topThemes (entries : List String) : List (String × Nat) :=
  (sortedThemeCounts entries).take 5

/-- Total keyword hits across all nonzero themes. -/
def totalThemeCount (entries : List String) : Nat :=
  ((themeCounts entries).map Prod.snd).sum

/-- theme.replace("_", " "). -/
def replUnderscore (s : String) : String :=
  String.mk (s.data.map (fun c => if c = '_' then ' ' else c))

/-- Capitalize one word: first character upper, rest lower. -/
def capitalizeWord (w : String) : String :=
  match w.data with
  | [] => ""
  | c :: t => String.mk (c.toUpper :: t.map Char.toLower)

/-- Split on single space characters (keeping empty pieces), enough to model
str.title() on the theme names, which contain single inner spaces only. -/
def splitSpace (s : String) : List String :=
  (s.data.splitOn ' ').map String.mk

/-- Model of str.title() for the theme display names. -/
def pyTitle (s : String) : String :=
  String.intercalate " " ((splitSpace s).map capitalizeWord)

structure Theme where
  theme : String
  count : Nat
  percentage : ℚ
  deriving DecidableEq

/-- Descending-count order on returned themes. -/
def thmRel (a b : Theme) : Prop := b.count ≤ a.count

/-- AIService.extract_themes, ai_service.py lines 160-199. -/
def extract_themes (entries : List String) : List Theme :=
  let total := totalThemeCount entries
  (topThemes entries).map (fun p =>
    ⟨pyTitle (replUnderscore p.1), p.2,
     if total = 0 then 0 else pyRound1 ((p.2 : ℚ) / (total : ℚ) * 100)⟩)

/-- The exact (pre-rounding) percentages of the returned themes, summed;
the object of the rounding-aside clauses of the spec. -/
def exactPercSum (entries : List String) : ℚ :=
  ((topThemes entries).map
    (fun p => (p.2 : ℚ) / (totalThemeCount entries : ℚ) * 100)).sum

/-! Prompt generator: AIService.generate_daily_prompts. -/

/-- Memory prompt templates, ai_service.py lines 39-44. -/
def memoryTemplates : List String :=
  ["What moment from today would you want to remember in 5 years?",
   "Describe a conversation today that made you think differently.",
   "What small victory did you achieve today?",
   "What made you smile unexpectedly today?"]

/-- Growth prompt templates, ai_service.py lines 45-50. -/
def growthTemplates : List String :=
  ["What challenged you today, and how did you grow from it?",
   "What did you learn about yourself today?",
   "How did you step outside your comfort zone today?",
   "What would you do differently if you could replay today?"]

/-- Mindfulness prompt templates, ai_service.py lines 51-56. -/
def mindfulnessTemplates : List String :=
  ["Describe a small detail you noticed today that others might have missed.",
   "What sounds, smells, or textures stood out to you today?",
   "When did you feel most present today?",
   "What beauty did you encounter in the ordinary today?"]

/-- Creative prompt templates, ai_service.py lines 57-62. -/
def creativeTemplates : List String :=
  ["If today had a color, what would it be and why?",
   "Write today\x27s story in exactly six words.",
   "If today was a song, what would its title be?",
   "Describe today using only metaphors from nature."]

/-- Gratitude prompt templates, ai_service.py lines 63-68. -/
def gratitudeTemplates : List String :=
  ["List three things you\x27re grateful for today, no matter how small.",
   "Who made a positive impact on your day?",
   "What comfort or convenience did you appreciate today?",
   "What aspect of your health are you thankful for today?"]

/-- Relationships prompt templates, ai_service.py lines 69-74. -/
def relationshipsTemplates : List String :=
  ["How did you connect with someone today?",
   "What did you appreciate about someone in your life today?",
   "How did you show kindness today?",
   "What relationship do you want to nurture more?"]

/-- The prompt_templates dict in source insertion order. -/
def prompt_templates : List (String × List String) :=
  [("memory", memoryTemplates), ("growth", growthTemplates),
   ("mindfulness", mindfulnessTemplates), ("creative", creativeTemplates),
   ("gratitude", gratitudeTemplates), ("relationships", relationshipsTemplates)]

/-- Look up a category template list. -/
def templatesFor (cat : String) : List String :=
  ((prompt_templates.find? (fun p => p.1 == cat)).map Prod.snd).getD []

/-- One draw of random.sample(lst, 1): the sampler is abstracted as an
arbitrary index choice per category, reduced modulo the list length. -/
def pickFrom (pick : String → Nat) (cat : String) : String :=
  let l := templatesFor cat
  l.getD (pick cat % l.length) ""

/-- The negative-mood trigger, ai_service.py lines 81-85: mood counts are
the (mood, count) rows of the group-by query; the comparison
negative_moods > total_moods * 0.5 is exact since multiplying an integer
float by 0.5 is exact. -/
def negativeCondition (moodCounts : List (String × Nat)) : Bool :=
  !moodCounts.isEmpty &&
    (let neg := ((moodCounts.filter (fun mc =>
        mc.1 == "sad" || mc.1 == "frustrated" || mc.1 == "anxious")).map
        Prod.snd).sum
     let tot := (moodCounts.map Prod.snd).sum
     decide (tot < 2 * neg))

/-- The selected_prompts list right before the fill loop, ai_service.py
lines 78-91: optionally a gratitude and a growth draw, then one draw from
each of memory, mindfulness, creative, relationships.  Every element is a
bare string (the dict-producing fill loop never runs, see below). -/
def selectedPrompts (moodCounts : List (String × Nat)) (pick : String → Nat) :
    List String :=
  (if negativeCondition moodCounts then
    [pickFrom pick "gratitude", pickFrom pick "growth"]
  else []) ++
  [pickFrom pick "memory", pickFrom pick "mindfulness",
   pickFrom pick "creative", pickFrom pick "relationships"]

/-- Guard of the fill while-loop at ai_service.py line 94.  The loop body is
not embedded: the guard is provably false at every call site (theorem for
claim C10), so the loop is the identity. -/
def needsFill (sel : List String) : Bool := sel.length < 4

structure Prompt where
  id : Nat
  text : String
  category : String
  deriving DecidableEq

/-- Formatting comprehension, ai_service.py lines 101-108, on the 1-based
enumeration of the first four selected prompts.  All selected items are
bare strings, so the category field takes the leaked value of the Python
for-loop variable category, which is "relationships" after the loop over
["memory", "mindfulness", "creative", "relationships"]. -/
def formatFrom (i : Nat) : List String → List Prompt
  | [] => []
  | s :: rest => ⟨i + 1, s, "relationships"⟩ :: formatFrom (i + 1) rest

/-- AIService.generate_daily_prompts, ai_service.py lines 20-108, as a
function of the mood group-by rows and the abstracted random sampler. -/
def generate_daily_prompts (moodCounts : List (String × Nat))
    (pick : String → Nat) : List Prompt :=
  formatFrom 0 ((selectedPrompts moodCounts pick).take 4)

/-! Emotion update endpoint: update_entry_emotions, app/api/emotions.py. -/

structure EmotionPayload where
  primaryEmotion : String
  primaryIntensity : Int
  secondary : Option (List String)
  energy : Int
  context : List (String × String)
  deriving DecidableEq

/-- The pydantic validation of EmotionData, emotions.py lines 15-19: the
only range constraints declared are ge=-50 and le=50 on energy; primary is
an unconstrained dict, so primary.intensity is never checked. -/
def validEmotionData (p : EmotionPayload) : Bool :=
  -50 ≤ p.energy && p.energy ≤ 50

structure Entry where
  id : Nat
  userId : Nat
  emotions : Option EmotionPayload
  energyLevel : Option Int
  deriving DecidableEq

structure HistoryRow where
  userId : Nat
  emotionData : EmotionPayload
  entryId : Nat
  deriving DecidableEq

structure DBState where
  entries : List Entry
  history : List HistoryRow
  deriving DecidableEq

/-- update_entry_emotions, emotions.py lines 37-77: pydantic validation at
the request boundary, then ownership lookup, then the two writes (entry
snapshot and history append) committed together.  Error codes: 422 for
validation failure, 404 for a missing or foreign entry. -/
def update_entry_emotions (st : DBState) (userId entryId : Nat)
    (payload : EmotionPayload) : Except Nat DBState :=
  if !validEmotionData payload then .error 422
  else
    match st.entries.find? (fun e => e.id == entryId && e.userId == userId) with
    | none => .error 404
    | some _ =>
      .ok ⟨st.entries.map (fun e =>
             if e.id == entryId && e.userId == userId then
               ⟨e.id, e.userId, some payload, some payload.energy⟩
             else e),
           st.history ++ [⟨userId, payload, entryId⟩]⟩

/-! Emotion suggestions: get_emotion_suggestions, emotions.py lines 79-139. -/

structure Suggestion where
  emotion : String
  intensity : Nat
  reason : String
  deriving DecidableEq

/-- Occurrence counts in first-seen order, modelling the dict built at
emotions.py lines 116-120. -/
def countOcc (l : List String) : List (String × Nat) :=
  l.foldl (fun acc e =>
    if acc.any (fun p => p.1 == e) then
      acc.map (fun p => if p.1 == e then (p.1, p.2 + 1) else p)
    else acc ++ [(e, 1)]) []

/-- Python max(seq, key=...) keeps the first maximal element in iteration
order: replace only on a strictly greater count. -/
def firstMaxAux (best : String) (bc : Nat) : List (String × Nat) → String
  | [] => best
  | (e, c) :: rest =>
    if bc < c then firstMaxAux e c rest else firstMaxAux best bc rest

/-- First key of maximal count, none on an empty table. -/
def firstMax : List (String × Nat) → Option String
  | [] => none
  | (e, c) :: rest => some (firstMaxAux e c rest)

/-- Mode of the truthy primary emotions of the recent history window
(None and "" are skipped by the truthiness test in the source). -/
def freqEmotion (recent : List (Option String)) : Option String :=
  firstMax (countOcc (recent.filterMap (fun o =>
    match o with
    | some s => if s == "" then none else some s
    | none => none)))

/-- The fixed fallback suggestions, emotions.py lines 132-137. -/
def defaultSuggestions : List Suggestion :=
  [⟨"content", 60, "A good starting point"⟩,
   ⟨"curious", 50, "Great for self-reflection"⟩,
   ⟨"grateful", 70, "Positive emotional state"⟩]

/-- get_emotion_suggestions as a function of the local hour and the primary
emotions of the recent history window.  Note the source guards are
6 <= current_hour <= 10 and 17 <= current_hour <= 21, both inclusive. -/
def get_emotion_suggestions (hour : Nat) (recent : List (Option String)) :
    List Suggestion :=
  let ts : List Suggestion :=
    if 6 ≤ hour ∧ hour ≤ 10 then
      [⟨"optimistic", 70, "Morning hours are often associated with optimism"⟩]
    else if 17 ≤ hour ∧ hour ≤ 21 then
      [⟨"reflective", 60, "Evening is a natural time for reflection"⟩]
    else []
  let fs : List Suggestion :=
    match freqEmotion recent with
    | some e => [⟨e, 50, "You\x27ve been feeling " ++ e ++ " frequently lately"⟩]
    | none => []
  let assembled := ts ++ fs
  let final := if assembled.isEmpty then defaultSuggestions else assembled
  final.take 3

/-! Emotion history patterns: get_emotion_history, emotions.py lines 141-209. -/

/-- One emotion_data.primary record of the history window, with the fields
the endpoint reads (missing intensity defaults to 0 in the source). -/
structure HistRec where
  emotion : Option String
  intensity : Option Int
  deriving DecidableEq

structure EmotionPattern where
  emotion : String
  frequency : Nat
  avg_intensity : ℚ
  trend : String
  deriving DecidableEq

structure HistoryResponse where
  patterns : List EmotionPattern
  recent_emotions : List HistRec
  insights : List String
  deriving DecidableEq

/-- Intensity lists per emotion in first-seen order, modelling the dict
building loop at emotions.py lines 167-177; records whose primary emotion
is missing or empty (falsy) are skipped. -/
def groupIntensities (records : List HistRec) : List (String × List Int) :=
  records.foldl (fun acc r =>
    match r.emotion with
    | none => acc
    | some e =>
      if e == "" then acc
      else if acc.any (fun p => p.1 == e) then
        acc.map (fun p =>
          if p.1 == e then (p.1, p.2 ++ [r.intensity.getD 0]) else p)
      else acc ++ [(e, [r.intensity.getD 0])]) []

/-- Descending-frequency order used by patterns.sort. -/
def patRel (a b : EmotionPattern) : Prop := b.frequency ≤ a.frequency

instance : DecidableRel patRel := fun a b => Nat.decLe b.frequency a.frequency

instance : IsTotal EmotionPattern patRel :=
  ⟨fun a b => (le_total b.frequency a.frequency).imp id id⟩

instance : IsTrans EmotionPattern patRel :=
  ⟨fun _ _ _ h1 h2 => le_trans h2 h1⟩

/-- get_emotion_history, as a function of the window length (days, used only
in an insight string) and the fetched records, most recent first. -/
def get_emotion_history (days : Nat) (records : List HistRec) :
    HistoryResponse :=
  if records.isEmpty then
    ⟨[], [], ["Start tracking your emotions to see patterns and insights!"]⟩
  else
    let pats0 := (groupIntensities records).map (fun g =>
      (⟨g.1, g.2.length,
        pyRound1 (((g.2.map (Int.cast : Int → ℚ)).sum) / (g.2.length : ℚ)),
        "stable"⟩ : EmotionPattern))
    let pats := List.insertionSort patRel pats0
    let recent := records.take 7
    let insights :=
      match pats.head? with
      | none => []
      | some top =>
        ["Your most frequent emotion lately is \x27" ++ top.emotion ++
         "\x27 with an average intensity of " ++ toString top.avg_intensity] ++
        (if 1 < pats.length then
          ["You\x27ve experienced " ++ toString pats.length ++
           " different emotions in the last " ++ toString days ++ " days"]
        else [])
    ⟨pats, recent, insights⟩

/-- The worked spec example for the pattern engine: five joy records with
intensities 70, 72, 68, 75, 71 and two sad records with intensities
40, 35. -/
def exampleHistory : List HistRec :=
  [⟨some "joy", some 70⟩, ⟨some "joy", some 72⟩, ⟨some "joy", some 68⟩,
   ⟨some "joy", some 75⟩, ⟨some "joy", some 71⟩,
   ⟨some "sad", some 40⟩, ⟨some "sad", some 35⟩]

/-! Insight aggregator: AIService.get_writing_insights. -/

structure InsightsResult where
  total_entries : Nat
  themes : List Theme
  average_sentiment : ℚ
  writing_pattern : String
  most_active_hour : Option Nat
  deriving DecidableEq

/-- Mode of the entry-creation hours: max(set(hours), key=hours.count).
Python set iteration order is unspecified; first-seen order with a
first-maximum tie-break is used here (no claim depends on a tie). -/
def modeHour (hours : List Nat) : Nat :=
  match (hours.dedup.map (fun h => (h, hours.count h))) with
  | [] => 0
  | (h, c) :: rest =>
    (rest.foldl (fun best p => if best.2 < p.2 then p else best) (h, c)).1

/-- Writing-pattern classification, ai_service.py lines 255-262. -/
def writingPattern (h : Nat) : String :=
  if 5 ≤ h ∧ h < 12 then "morning writer"
  else if 12 ≤ h ∧ h < 17 then "afternoon reflector"
  else if 17 ≤ h ∧ h < 22 then "evening journalist"
  else "night owl"

/-- AIService.get_writing_insights, ai_service.py lines 228-270, as a
function of the fetched entries given as (content, created_at.hour) pairs.
The empty-corpus branch returns the short-circuit payload, which carries no
most_active_hour field (modelled as none). -/
def get_writing_insights (entries : List (String × Nat)) : InsightsResult :=
  if entries.isEmpty then ⟨0, [], 0, "No data yet", none⟩
  else
    let themes := extract_themes (entries.map Prod.fst)
    let sentiments := entries.map (fun e => (analyze_sentiment e.1).sentiment_score)
    let avg := sentiments.sum / (sentiments.length : ℚ)
    let hours := entries.map Prod.snd
    let mode := modeHour hours
    ⟨entries.length, themes, pyRound2 avg, writingPattern mode, some mode⟩

/-! Helper lemmas shared by the claim theorems. -/

/-- An indexed lookup reduced modulo the length lands in the list. -/
lemma getD_mod_mem (l : List String) (i : Nat) (h : l ≠ []) :
    l.getD (i % l.length) "" ∈ l := by
  have hl : 0 < l.length := List.length_pos.mpr h
  have hm : i % l.length < l.length := Nat.mod_lt _ hl
  rw [List.getD_eq_getElem?_getD, List.getElem?_eq_getElem hm]
  exact List.getElem_mem hm

/-- Members of lists with no common element are distinct. -/
lemma ne_of_mem_disj {a b : String} {l₁ l₂ : List String}
    (ha : a ∈ l₁) (hb : b ∈ l₂) (h : ∀ x ∈ l₁, x ∉ l₂) : a ≠ b :=
  fun he => h a ha (he ▸ hb)

/-- A four-element list with pairwise different entries has no duplicate. -/
lemma nodup_four {a b c d : String} (h1 : a ≠ b) (h2 : a ≠ c) (h3 : a ≠ d)
    (h4 : b ≠ c) (h5 : b ≠ d) (h6 : c ≠ d) :
    ([a, b, c, d] : List String).Nodup := by
  simp [List.nodup_cons, h1, h2, h3, h4, h5, h6]

lemma pickFrom_mem_memory (p : String → Nat) :
    pickFrom p "memory" ∈ memoryTemplates := by
  have ht : templatesFor "memory" = memoryTemplates := by decide
  simpa [pickFrom, ht] using getD_mod_mem memoryTemplates (p "memory") (by decide)

lemma pickFrom_mem_growth (p : String → Nat) :
    pickFrom p "growth" ∈ growthTemplates := by
  have ht : templatesFor "growth" = growthTemplates := by decide
  simpa [pickFrom, ht] using getD_mod_mem growthTemplates (p "growth") (by decide)

lemma pickFrom_mem_mindfulness (p : String → Nat) :
    pickFrom p "mindfulness" ∈ mindfulnessTemplates := by
  have ht : templatesFor "mindfulness" = mindfulnessTemplates := by decide
  simpa [pickFrom, ht] using
    getD_mod_mem mindfulnessTemplates (p "mindfulness") (by decide)

lemma pickFrom_mem_creative (p : String → Nat) :
    pickFrom p "creative" ∈ creativeTemplates := by
  have ht : templatesFor "creative" = creativeTemplates := by decide
  simpa [pickFrom, ht] using
    getD_mod_mem creativeTemplates (p "creative") (by decide)

lemma pickFrom_mem_gratitude (p : String → Nat) :
    pickFrom p "gratitude" ∈ gratitudeTemplates := by
  have ht : templatesFor "gratitude" = gratitudeTemplates := by decide
  simpa [pickFrom, ht] using
    getD_mod_mem gratitudeTemplates (p "gratitude") (by decide)

lemma pickFrom_mem_relationships (p : String → Nat) :
    pickFrom p "relationships" ∈ relationshipsTemplates := by
  have ht : templatesFor "relationships" = relationshipsTemplates := by decide
  simpa [pickFrom, ht] using
    getD_mod_mem relationshipsTemplates (p "relationships") (by decide)

lemma disj_grat_growth : ∀ a ∈ gratitudeTemplates, a ∉ growthTemplates := by decide

lemma disj_grat_mem : ∀ a ∈ gratitudeTemplates, a ∉ memoryTemplates := by decide

lemma disj_grat_mind : ∀ a ∈ gratitudeTemplates, a ∉ mindfulnessTemplates := by
  decide

lemma disj_growth_mem : ∀ a ∈ growthTemplates, a ∉ memoryTemplates := by decide

lemma disj_growth_mind : ∀ a ∈ growthTemplates, a ∉ mindfulnessTemplates := by
  decide

lemma disj_mem_mind : ∀ a ∈ memoryTemplates, a ∉ mindfulnessTemplates := by decide

lemma disj_mem_cre : ∀ a ∈ memoryTemplates, a ∉ creativeTemplates := by decide

lemma disj_mem_rel : ∀ a ∈ memoryTemplates, a ∉ relationshipsTemplates := by decide

lemma disj_mind_cre : ∀ a ∈ mindfulnessTemplates, a ∉ creativeTemplates := by
  decide

lemma disj_mind_rel : ∀ a ∈ mindfulnessTemplates, a ∉ relationshipsTemplates := by
  decide

lemma disj_cre_rel : ∀ a ∈ creativeTemplates, a ∉ relationshipsTemplates := by
  decide

/-- Floor computation by sandwiching. -/
lemma floorEq (q : ℚ) (z : ℤ) (h1 : (z : ℚ) ≤ q) (h2 : q < z + 1) : ⌊q⌋ = z :=
  Int.floor_eq_iff.mpr ⟨h1, h2⟩

/-- roundHalfEven rounds down below the halfway point. -/
lemma roundHalfEven_eq_down (q : ℚ) (z : ℤ) (h1 : (z : ℚ) ≤ q)
    (h2 : q < (z : ℚ) + 1/2) : roundHalfEven q = z := by
  have hf : ⌊q⌋ = z := floorEq q z h1 (by linarith)
  simp only [roundHalfEven, hf]
  rw [if_pos]
  linarith

/-- roundHalfEven rounds up above the halfway point. -/
lemma roundHalfEven_eq_up (q : ℚ) (z : ℤ) (h1 : (z : ℚ) + 1/2 < q)
    (h2 : q < (z : ℚ) + 1) : roundHalfEven q = z + 1 := by
  have hf : ⌊q⌋ = z := floorEq q z (by linarith) (by linarith)
  have hlt : ¬(q - (z : ℚ) < 1/2) := by linarith
  have hgt : (1 : ℚ)/2 < q - (z : ℚ) := by linarith
  simp only [roundHalfEven, hf]
  rw [if_neg, if_pos] <;> simp_all

/-- roundHalfEven is the identity on integers. -/
lemma roundHalfEven_int (z : ℤ) : roundHalfEven (z : ℚ) = z :=
  roundHalfEven_eq_down _ z (le_refl _) (by linarith)

/-- Every retained theme count is positive (zero counts are filtered out). -/
lemma themeCounts_snd_pos (entries : List String) :
    ∀ q ∈ themeCounts entries, 0 < q.2 := by
  intro q hq
  have h2 := (List.mem_filter.mp hq).2
  simp only [bne_iff_ne, ne_eq] at h2
  exact Nat.pos_of_ne_zero h2

/-- A nonempty retained-theme table has a positive total hit count. -/
lemma totalThemeCount_pos (entries : List String)
    (h : themeCounts entries ≠ []) : 0 < totalThemeCount entries := by
  rw [totalThemeCount]
  cases hl : themeCounts entries with
  | nil => exact absurd hl h
  | cons a as =>
    have ha : 0 < a.2 :=
      themeCounts_snd_pos entries a (hl ▸ List.mem_cons_self a as)
    simp only [List.map_cons, List.sum_cons]
    exact Nat.lt_of_lt_of_le ha (Nat.le_add_right _ _)

/-- The sorted theme table is a permutation of the retained-theme table. -/
lemma sortedThemeCounts_perm (entries : List String) :
    (sortedThemeCounts entries).Perm (themeCounts entries) :=
  List.perm_insertionSort cntRel (themeCounts entries)

/-- The exact percentages over ALL retained themes sum to exactly 100. -/
lemma sum_exact_all (entries : List String) (h : themeCounts entries ≠ []) :
    ((themeCounts entries).map
      (fun q => (q.2 : ℚ) / (totalThemeCount entries : ℚ) * 100)).sum = 100 := by
  have hTpos : 0 < totalThemeCount entries := totalThemeCount_pos entries h
  have hTQ : ((totalThemeCount entries : ℚ)) ≠ 0 := by
    exact_mod_cast Nat.pos_iff_ne_zero.mp hTpos
  have hstep : ∀ q : String × Nat,
      (q.2 : ℚ) / (totalThemeCount entries : ℚ) * 100 =
        (q.2 : ℚ) * (100 / (totalThemeCount entries : ℚ)) := fun q => by ring
  calc ((themeCounts entries).map
        (fun q => (q.2 : ℚ) / (totalThemeCount entries : ℚ) * 100)).sum
      = ((themeCounts entries).map
          (fun q => (q.2 : ℚ) * (100 / (totalThemeCount entries : ℚ)))).sum := by
        simp only [hstep]
    _ = ((themeCounts entries).map (fun q => (q.2 : ℚ))).sum *
          (100 / (totalThemeCount entries : ℚ)) :=
        List.sum_map_mul_right _ _ _
    _ = ((totalThemeCount entries : ℚ)) *
          (100 / (totalThemeCount entries : ℚ)) := by
        rw [show (themeCounts entries).map (fun q => (q.2 : ℚ)) =
              ((themeCounts entries).map Prod.snd).map (Nat.cast : ℕ → ℚ) by
            rw [List.map_map]; rfl,
          ← Nat.cast_list_sum]
        rfl
    _ = 100 := by field_simp

/-- Each exact percentage term is nonnegative. -/
lemma perc_term_nonneg (entries : List String) (q : String × Nat) :
    0 ≤ (q.2 : ℚ) / (totalThemeCount entries : ℚ) * 100 :=
  mul_nonneg (div_nonneg (Nat.cast_nonneg _) (Nat.cast_nonneg _)) (by norm_num)

/-! Claim theorems. -/

/-- C1: the claim says record_emotion with primary.intensity=150 fails with
ValidationError before any persistence.  The code only range-checks energy
(the pydantic EmotionData declares no constraint on primary), so a payload
with intensity 150 and a valid energy passes validation, the entry snapshot
is overwritten and a history row is appended. -/
theorem claim_C1_intensity_150_accepted_and_persisted :
    validEmotionData ⟨"joy", 150, none, 0, []⟩ = true ∧
    update_entry_emotions ⟨[⟨1, 1, none, none⟩], []⟩ 1 1 ⟨"joy", 150, none, 0, []⟩ =
      .ok ⟨[⟨1, 1, some ⟨"joy", 150, none, 0, []⟩, some 0⟩],
           [⟨1, ⟨"joy", 150, none, 0, []⟩, 1⟩]⟩ := by
  exact ⟨rfl, rfl⟩

/-- C2: the sentiment score equals (pos - neg) / (pos + neg + 1) for every
input (the empty-token branch agrees with the formula), lies strictly in
(-1, 1), and the empty string scores exactly 0 with label neutral. -/
theorem claim_C2_sentiment_score_formula_bounds_empty :
    ∀ text : String,
      sentimentScore text =
        ((positiveCount text : ℚ) - (negativeCount text : ℚ)) /
          ((positiveCount text : ℚ) + (negativeCount text : ℚ) + 1) ∧
      -1 < sentimentScore text ∧ sentimentScore text < 1 ∧
      sentimentScore "" = 0 ∧
      (analyze_sentiment "").primary_emotion = "neutral" := by
  intro text
  have hp : (0 : ℚ) ≤ (positiveCount text : ℚ) := Nat.cast_nonneg _
  have hn : (0 : ℚ) ≤ (negativeCount text : ℚ) := Nat.cast_nonneg _
  have hd : (0 : ℚ) < (positiveCount text : ℚ) + (negativeCount text : ℚ) + 1 := by
    linarith
  have hf : sentimentScore text =
      ((positiveCount text : ℚ) - (negativeCount text : ℚ)) /
        ((positiveCount text : ℚ) + (negativeCount text : ℚ) + 1) := by
    by_cases h : (tokenize text).length = 0
    · have he : tokenize text = [] := List.length_eq_zero.mp h
      simp [sentimentScore, positiveCount, negativeCount, h, he]
    · simp [sentimentScore, h]
  have he0 : sentimentScore "" = 0 := by
    have ht : tokenize "" = [] := by decide
    simp [sentimentScore, ht]
  have hne : (analyze_sentiment "").primary_emotion = "neutral" := by
    rw [analyze_sentiment, he0]
    norm_num
  refine ⟨hf, ?_, ?_, he0, hne⟩
  · rw [hf, lt_div_iff₀ hd]
    linarith
  · rw [hf, div_lt_one hd]
    linarith

/-- C3: classification uses the 0.3 thresholds on the unrounded score
(score above 3/10 gives positive/content, below -3/10 gives
negative/concerned, otherwise neutral/reflective), and on the example
sentence the counts are pos=2 (happy, grateful), neg=0, giving label
positive. -/
theorem claim_C3_classification_thresholds_and_example :
    (∀ text : String,
      (analyze_sentiment text).primary_emotion =
        (if 3/10 < sentimentScore text then "positive"
         else if sentimentScore text < -(3/10) then "negative" else "neutral") ∧
      (analyze_sentiment text).secondary_emotion =
        (if 3/10 < sentimentScore text then "content"
         else if sentimentScore text < -(3/10) then "concerned"
         else "reflective")) ∧
    positiveCount "I am so happy and grateful today" = 2 ∧
    negativeCount "I am so happy and grateful today" = 0 ∧
    sentimentScore "I am so happy and grateful today" = 2/3 ∧
    (analyze_sentiment "I am so happy and grateful today").primary_emotion =
      "positive" := by
  have hp2 : positiveCount "I am so happy and grateful today" = 2 := by decide
  have hn0 : negativeCount "I am so happy and grateful today" = 0 := by decide
  have hl7 : (tokenize "I am so happy and grateful today").length = 7 := by decide
  have hs : sentimentScore "I am so happy and grateful today" = 2/3 := by
    simp [sentimentScore, hp2, hn0, hl7]
    norm_num
  have hpos : (analyze_sentiment "I am so happy and grateful today").primary_emotion
      = "positive" := by
    rw [analyze_sentiment, hs]
    norm_num
  refine ⟨fun text => ?_, hp2, hn0, hs, hpos⟩
  unfold analyze_sentiment
  by_cases h1 : 3/10 < sentimentScore text
  · simp [h1, gt_iff_lt]
  · by_cases h2 : sentimentScore text < -(3/10) <;> simp [h1, h2, gt_iff_lt]

/-- C9: analytics over empty input return zero/empty structures without
error: empty emotion history yields empty patterns and recent lists plus the
onboarding insight, and zero entries yield the short-circuit writing
insights payload. -/
theorem claim_C9_empty_inputs_zeroed_structures :
    (∀ days : Nat,
      get_emotion_history days [] =
        ⟨[], [], ["Start tracking your emotions to see patterns and insights!"]⟩ ∧
      (get_emotion_history days []).insights ≠ []) ∧
    get_writing_insights [] = ⟨0, [], 0, "No data yet", none⟩ := by
  exact ⟨fun days => ⟨rfl, by simp [get_emotion_history]⟩, rfl⟩

/-- C5: for every mood history and every realisation of the random sampler,
generate_daily_prompts returns exactly 4 prompts, with ids 1, 2, 3, 4 in
output order and pairwise distinct texts. -/
theorem claim_C5_exactly_four_distinct_prompts :
    ∀ (m : List (String × Nat)) (p : String → Nat),
      (generate_daily_prompts m p).length = 4 ∧
      (generate_daily_prompts m p).map Prompt.id = [1, 2, 3, 4] ∧
      ((generate_daily_prompts m p).map Prompt.text).Nodup := by
  intro m p
  have hme := pickFrom_mem_memory p
  have hmi := pickFrom_mem_mindfulness p
  have hcr := pickFrom_mem_creative p
  have hre := pickFrom_mem_relationships p
  have hga := pickFrom_mem_gratitude p
  have hgr := pickFrom_mem_growth p
  cases h : negativeCondition m
  · have he : (generate_daily_prompts m p).map Prompt.text =
        [pickFrom p "memory", pickFrom p "mindfulness",
         pickFrom p "creative", pickFrom p "relationships"] := by
      simp [generate_daily_prompts, selectedPrompts, h, formatFrom, List.take]
    refine ⟨?_, ?_, ?_⟩
    · simp [generate_daily_prompts, selectedPrompts, h, formatFrom, List.take]
    · simp [generate_daily_prompts, selectedPrompts, h, formatFrom, List.take]
    · rw [he]
      exact nodup_four (ne_of_mem_disj hme hmi disj_mem_mind)
        (ne_of_mem_disj hme hcr disj_mem_cre)
        (ne_of_mem_disj hme hre disj_mem_rel)
        (ne_of_mem_disj hmi hcr disj_mind_cre)
        (ne_of_mem_disj hmi hre disj_mind_rel)
        (ne_of_mem_disj hcr hre disj_cre_rel)
  · have he : (generate_daily_prompts m p).map Prompt.text =
        [pickFrom p "gratitude", pickFrom p "growth",
         pickFrom p "memory", pickFrom p "mindfulness"] := by
      simp [generate_daily_prompts, selectedPrompts, h, formatFrom, List.take]
    refine ⟨?_, ?_, ?_⟩
    · simp [generate_daily_prompts, selectedPrompts, h, formatFrom, List.take]
    · simp [generate_daily_prompts, selectedPrompts, h, formatFrom, List.take]
    · rw [he]
      exact nodup_four (ne_of_mem_disj hga hgr disj_grat_growth)
        (ne_of_mem_disj hga hme disj_grat_mem)
        (ne_of_mem_disj hga hmi disj_grat_mind)
        (ne_of_mem_disj hgr hme disj_growth_mem)
        (ne_of_mem_disj hgr hmi disj_growth_mind)
        (ne_of_mem_disj hme hmi disj_mem_mind)

/-- C10: the fill while-loop guard is already false when reached (the four
per-category draws guarantee at least 4 selected prompts), every selected
prompt is a bare string, and therefore every returned prompt carries the
leaked Python loop-variable category "relationships"; no returned category
is memory, mindfulness, creative, gratitude or growth. -/
theorem claim_C10_fill_loop_dead_and_category_leak :
    ∀ (m : List (String × Nat)) (p : String → Nat),
      needsFill (selectedPrompts m p) = false ∧
      (generate_daily_prompts m p).map Prompt.category =
        ["relationships", "relationships", "relationships", "relationships"] ∧
      ((generate_daily_prompts m p).map Prompt.category).all
        (fun c => !(["memory", "mindfulness", "creative", "gratitude",
                     "growth"].contains c)) = true := by
  intro m p
  cases h : negativeCondition m <;>
    simp [needsFill, generate_daily_prompts, selectedPrompts, h, formatFrom,
      List.take]

/-- C6 counterexample: with a majority-sad mood history, the four returned
prompts are the gratitude, growth, memory and mindfulness draws; no
returned text comes from the creative list (nor the relationships list),
refuting the claim that every call returns one prompt from each of memory,
mindfulness, creative and relationships. -/
theorem claim_C6_counterexample :
    negativeCondition [("sad", 3), ("happy", 1)] = true ∧
    (((generate_daily_prompts [("sad", 3), ("happy", 1)] (fun _ => 0)).map
        Prompt.text).any (fun t => creativeTemplates.contains t)) = false ∧
    (((generate_daily_prompts [("sad", 3), ("happy", 1)] (fun _ => 0)).map
        Prompt.text).any (fun t => relationshipsTemplates.contains t)) =
      false := by
  decide

/-- C6 amended: the four memory/mindfulness/creative/relationships draws are
always selected, but the output is capped at 4 prompts; when the negative
moods (sad/frustrated/anxious) exceed half of the mood-tagged entries, the
returned prompts are the gratitude, growth, memory and mindfulness draws
(the creative and relationships draws are truncated away); otherwise the
returned prompts are one draw from each of memory, mindfulness, creative
and relationships. -/
theorem claim_C6_amended_category_coverage :
    ∀ (m : List (String × Nat)) (p : String → Nat),
      (negativeCondition m = true →
        (generate_daily_prompts m p).map Prompt.text =
          [pickFrom p "gratitude", pickFrom p "growth",
           pickFrom p "memory", pickFrom p "mindfulness"] ∧
        (∃ t ∈ (generate_daily_prompts m p).map Prompt.text,
          t ∈ gratitudeTemplates) ∧
        (∃ t ∈ (generate_daily_prompts m p).map Prompt.text,
          t ∈ growthTemplates) ∧
        (∃ t ∈ (generate_daily_prompts m p).map Prompt.text,
          t ∈ memoryTemplates) ∧
        (∃ t ∈ (generate_daily_prompts m p).map Prompt.text,
          t ∈ mindfulnessTemplates)) ∧
      (negativeCondition m = false →
        (generate_daily_prompts m p).map Prompt.text =
          [pickFrom p "memory", pickFrom p "mindfulness",
           pickFrom p "creative", pickFrom p "relationships"] ∧
        (∃ t ∈ (generate_daily_prompts m p).map Prompt.text,
          t ∈ memoryTemplates) ∧
        (∃ t ∈ (generate_daily_prompts m p).map Prompt.text,
          t ∈ mindfulnessTemplates) ∧
        (∃ t ∈ (generate_daily_prompts m p).map Prompt.text,
          t ∈ creativeTemplates) ∧
        (∃ t ∈ (generate_daily_prompts m p).map Prompt.text,
          t ∈ relationshipsTemplates)) := by
  intro m p
  constructor
  · intro h
    have he : (generate_daily_prompts m p).map Prompt.text =
        [pickFrom p "gratitude", pickFrom p "growth",
         pickFrom p "memory", pickFrom p "mindfulness"] := by
      simp [generate_daily_prompts, selectedPrompts, h, formatFrom, List.take]
    rw [he]
    exact ⟨rfl,
      ⟨pickFrom p "gratitude", by simp, pickFrom_mem_gratitude p⟩,
      ⟨pickFrom p "growth", by simp, pickFrom_mem_growth p⟩,
      ⟨pickFrom p "memory", by simp, pickFrom_mem_memory p⟩,
      ⟨pickFrom p "mindfulness", by simp, pickFrom_mem_mindfulness p⟩⟩
  · intro h
    have he : (generate_daily_prompts m p).map Prompt.text =
        [pickFrom p "memory", pickFrom p "mindfulness",
         pickFrom p "creative", pickFrom p "relationships"] := by
      simp [generate_daily_prompts, selectedPrompts, h, formatFrom, List.take]
    rw [he]
    exact ⟨rfl,
      ⟨pickFrom p "memory", by simp, pickFrom_mem_memory p⟩,
      ⟨pickFrom p "mindfulness", by simp, pickFrom_mem_mindfulness p⟩,
      ⟨pickFrom p "creative", by simp, pickFrom_mem_creative p⟩,
      ⟨pickFrom p "relationships", by simp, pickFrom_mem_relationships p⟩⟩

/-- Witness for the amended C6 theorem: both arms applied at concrete
inputs, a majority-sad history and an empty history. -/
theorem claim_C6_amended_witness :
    (generate_daily_prompts [("sad", 3), ("happy", 1)] (fun _ => 0)).map
        Prompt.text =
      [pickFrom (fun _ => 0) "gratitude", pickFrom (fun _ => 0) "growth",
       pickFrom (fun _ => 0) "memory", pickFrom (fun _ => 0) "mindfulness"] ∧
    (generate_daily_prompts [] (fun _ => 0)).map Prompt.text =
      [pickFrom (fun _ => 0) "memory", pickFrom (fun _ => 0) "mindfulness",
       pickFrom (fun _ => 0) "creative",
       pickFrom (fun _ => 0) "relationships"] :=
  ⟨((claim_C6_amended_category_coverage [("sad", 3), ("happy", 1)]
      (fun _ => 0)).1 (by decide)).1,
   ((claim_C6_amended_category_coverage [] (fun _ => 0)).2 (by decide)).1⟩

/-- C7 counterexample: at local hour 10 — outside the claimed half-open
morning interval [6,10) — with an empty history, the code still produces
the time-based "optimistic" suggestion instead of the claimed fixed
defaults: the source guard is 6 <= hour <= 10, inclusive on the right. -/
theorem claim_C7_counterexample :
    ¬(6 ≤ 10 ∧ 10 < 10) ∧
    get_emotion_suggestions 10 [] =
      [⟨"optimistic", 70, "Morning hours are often associated with optimism"⟩] ∧
    get_emotion_suggestions 10 [] ≠ defaultSuggestions := by
  decide

/-- C7 amended: the time-based suggestion fires on the inclusive intervals
[6,10] (optimistic/70) and [17,21] (reflective/60) and at no other hour;
the mode of the truthy primary emotions of the window is appended at
intensity 50; if nothing was assembled the three fixed defaults are
returned; the result is the first 3 suggestions in assembly order. -/
theorem claim_C7_amended_suggestions :
    ∀ (hour : Nat) (recent : List (Option String)),
      ((6 ≤ hour ∧ hour ≤ 10) →
        (get_emotion_suggestions hour recent).head? =
          some ⟨"optimistic", 70,
                "Morning hours are often associated with optimism"⟩) ∧
      ((17 ≤ hour ∧ hour ≤ 21) →
        (get_emotion_suggestions hour recent).head? =
          some ⟨"reflective", 60, "Evening is a natural time for reflection"⟩) ∧
      (¬(6 ≤ hour ∧ hour ≤ 10) → ¬(17 ≤ hour ∧ hour ≤ 21) →
        freqEmotion recent = none →
        get_emotion_suggestions hour recent = defaultSuggestions) ∧
      (∀ e, freqEmotion recent = some e →
        (⟨e, 50, "You\x27ve been feeling " ++ e ++ " frequently lately"⟩ :
            Suggestion) ∈ get_emotion_suggestions hour recent) ∧
      (get_emotion_suggestions hour recent).length ≤ 3 := by
  intro hour recent
  refine ⟨?_, ?_, ?_, ?_, ?_⟩
  · intro h1
    cases hf : freqEmotion recent <;>
      simp [get_emotion_suggestions, h1, hf, List.take]
  · intro h2
    by_cases h1 : 6 ≤ hour ∧ hour ≤ 10
    · omega
    · cases hf : freqEmotion recent <;>
        simp [get_emotion_suggestions, h1, h2, hf, List.take]
  · intro h1 h2 hf
    simp [get_emotion_suggestions, h1, h2, hf, defaultSuggestions, List.take]
  · intro e hf
    by_cases h1 : 6 ≤ hour ∧ hour ≤ 10
    · simp [get_emotion_suggestions, h1, hf, List.take]
    · by_cases h2 : 17 ≤ hour ∧ hour ≤ 21 <;>
        simp [get_emotion_suggestions, h1, h2, hf, List.take]
  · by_cases h1 : 6 ≤ hour ∧ hour ≤ 10
    · cases hf : freqEmotion recent <;>
        simp [get_emotion_suggestions, h1, hf, List.take]
    · by_cases h2 : 17 ≤ hour ∧ hour ≤ 21 <;>
        cases hf : freqEmotion recent <;>
          simp [get_emotion_suggestions, h1, h2, hf, defaultSuggestions,
            List.take]

/-- Witness for the amended C7 theorem: the morning arm at hour 8, the
evening arm at hour 19, the defaults arm at hour 12 with empty history,
and the frequency arm on a one-record history. -/
theorem claim_C7_amended_witness :
    (get_emotion_suggestions 8 [some "joy"]).head? =
      some ⟨"optimistic", 70,
            "Morning hours are often associated with optimism"⟩ ∧
    (get_emotion_suggestions 19 []).head? =
      some ⟨"reflective", 60, "Evening is a natural time for reflection"⟩ ∧
    get_emotion_suggestions 12 [] = defaultSuggestions ∧
    (⟨"joy", 50, "You\x27ve been feeling joy frequently lately"⟩ :
        Suggestion) ∈ get_emotion_suggestions 8 [some "joy"] :=
  ⟨(claim_C7_amended_suggestions 8 [some "joy"]).1 (by decide),
   (claim_C7_amended_suggestions 19 []).2.1 (by decide),
   (claim_C7_amended_suggestions 12 []).2.2.1 (by decide) (by decide)
     (by decide),
   by
    have := (claim_C7_amended_suggestions 8 [some "joy"]).2.2.2.1 "joy"
      (by decide)
    simpa using this⟩

/-- C8: emotion history patterns group by primary emotion with frequency the
group size, mean intensity rounded to one decimal, trend always "stable",
and descending frequency order; on the worked example (5 joy records with
intensities 70, 72, 68, 75, 71 and 2 sad with 40, 35) the first pattern is
joy with frequency 5 and average intensity 71.2. -/
theorem claim_C8_history_patterns_grouping :
    (∀ (days : Nat) (records : List HistRec),
      List.Sorted patRel (get_emotion_history days records).patterns ∧
      ((get_emotion_history days records).patterns).all
        (fun q => q.trend == "stable") = true) ∧
    (get_emotion_history 30 exampleHistory).patterns =
      [⟨"joy", 5, 71.2, "stable"⟩, ⟨"sad", 2, 37.5, "stable"⟩] := by
  constructor
  · intro days records
    by_cases hr : records.isEmpty
    · simp [get_emotion_history, hr]
    · constructor
      · simp only [get_emotion_history, hr, Bool.false_eq_true, if_neg,
          if_false]
        exact List.sorted_insertionSort patRel _
      · simp only [get_emotion_history, hr, Bool.false_eq_true, if_neg,
          if_false]
        rw [List.all_eq_true]
        intro q hq
        rw [List.mem_insertionSort] at hq
        obtain ⟨g, _, rfl⟩ := List.mem_map.mp hq
        rfl
  · have hg : groupIntensities exampleHistory =
        [("joy", [70, 72, 68, 75, 71]), ("sad", [40, 35])] := by decide
    have hjs : ("joy" : String) ≠ "sad" := by decide
    have hj : pyRound1 ((356 : ℚ)/5) = 71.2 := by
      rw [pyRound1, show ((356 : ℚ)/5) * 10 = ((712 : ℤ) : ℚ) by norm_num,
        roundHalfEven_int]
      norm_num
    have hs : pyRound1 ((75 : ℚ)/2) = 37.5 := by
      rw [pyRound1, show ((75 : ℚ)/2) * 10 = ((375 : ℤ) : ℚ) by norm_num,
        roundHalfEven_int]
      norm_num
    simp only [get_emotion_history, hg, exampleHistory, List.isEmpty_cons,
      Bool.false_eq_true, if_false, List.map_cons, List.map_nil,
      List.length_cons, List.length_nil, List.sum_cons, List.sum_nil,
      Int.cast_ofNat]
    norm_num [hjs, hj, hs, List.insertionSort, List.orderedInsert, patRel]

/-- C4 counterexample: a batch hitting six theme categories once each
returns five themes (nonempty result), yet the exact percentages of the
returned themes sum to 250/3 and the rounded ones to 167/2 — neither is
100, refuting the sum-to-100 clause for nonempty results. -/
theorem claim_C4_counterexample :
    (extract_themes ["work friend health learn art nature"]).length = 5 ∧
    extract_themes ["work friend health learn art nature"] ≠ [] ∧
    exactPercSum ["work friend health learn art nature"] = 250/3 ∧
    (250 : ℚ)/3 ≠ 100 ∧
    ((extract_themes ["work friend health learn art nature"]).map
      Theme.percentage).sum = 167/2 ∧
    (167 : ℚ)/2 ≠ 100 := by
  have ht : topThemes ["work friend health learn art nature"] =
      [("work", 1), ("relationships", 1), ("health", 1),
       ("personal_growth", 1), ("creativity", 1)] := by decide
  have htot : totalThemeCount ["work friend health learn art nature"] = 6 := by
    decide
  have hperc : pyRound1 ((50 : ℚ)/3) = 167/10 := by
    rw [pyRound1, show ((50 : ℚ)/3) * 10 = 500/3 by norm_num,
      roundHalfEven_eq_up (500/3) 166 (by norm_num) (by norm_num)]
    norm_num
  refine ⟨?_, ?_, ?_, by norm_num, ?_, by norm_num⟩
  · simp [extract_themes, ht]
  · simp [extract_themes, ht]
  · rw [exactPercSum, ht, htot]
    norm_num
  · rw [extract_themes, ht, htot]
    norm_num [hperc]

/-- C4 amended: theme extraction returns at most 5 themes, descending by
count (stable ties), the empty batch and the no-hit batch give the empty
list, the returned exact percentages always sum to at most 100, and they
sum to exactly 100 whenever at most 5 themes had nonzero counts (so
nothing was truncated) and at least one did. -/
theorem claim_C4_amended_theme_extraction :
    ∀ entries : List String,
      (extract_themes entries).length ≤ 5 ∧
      List.Sorted thmRel (extract_themes entries) ∧
      extract_themes [] = [] ∧
      (themeCounts entries = [] → extract_themes entries = []) ∧
      exactPercSum entries ≤ 100 ∧
      ((themeCounts entries).length ≤ 5 → themeCounts entries ≠ [] →
        exactPercSum entries = 100) := by
  intro entries
  refine ⟨?_, ?_, by decide, ?_, ?_, ?_⟩
  · rw [extract_themes]
    rw [List.length_map, topThemes, List.length_take]
    exact min_le_left 5 _
  · have hsorted : List.Sorted cntRel (sortedThemeCounts entries) :=
      List.sorted_insertionSort cntRel _
    have htop : List.Sorted cntRel (topThemes entries) :=
      hsorted.sublist (List.take_sublist 5 _)
    rw [extract_themes]
    exact htop.map _ (fun a b h => h)
  · intro h
    simp [extract_themes, topThemes, sortedThemeCounts, h,
      List.insertionSort]
  · by_cases h : themeCounts entries = []
    · have htop : topThemes entries = [] := by
        simp [topThemes, sortedThemeCounts, h, List.insertionSort]
      rw [exactPercSum, htop]
      norm_num
    · have hperm : ((sortedThemeCounts entries).map
          (fun q => (q.2 : ℚ) / (totalThemeCount entries : ℚ) * 100)).sum =
          ((themeCounts entries).map
            (fun q => (q.2 : ℚ) / (totalThemeCount entries : ℚ) * 100)).sum :=
        ((sortedThemeCounts_perm entries).map _).sum_eq
      have hsplit : ((sortedThemeCounts entries).map
          (fun q => (q.2 : ℚ) / (totalThemeCount entries : ℚ) * 100)).sum =
          exactPercSum entries +
            (((sortedThemeCounts entries).drop 5).map
              (fun q => (q.2 : ℚ) / (totalThemeCount entries : ℚ) * 100)).sum := by
        rw [exactPercSum, topThemes]
        rw [show (sortedThemeCounts entries) =
          ((sortedThemeCounts entries).take 5) ++
            ((sortedThemeCounts entries).drop 5) from
          (List.take_append_drop 5 _).symm]
        rw [List.map_append, List.sum_append]
        simp [List.take_take, List.drop_take]
      have hdrop : 0 ≤ (((sortedThemeCounts entries).drop 5).map
          (fun q => (q.2 : ℚ) / (totalThemeCount entries : ℚ) * 100)).sum := by
        apply List.sum_nonneg
        intro x hx
        obtain ⟨q, _, rfl⟩ := List.mem_map.mp hx
        exact perc_term_nonneg entries q
      have h100 := sum_exact_all entries h
      rw [hsplit, h100] at hperm
      linarith
  · intro hlen hne
    have hall : topThemes entries = sortedThemeCounts entries := by
      apply List.take_of_length_le
      rw [sortedThemeCounts, List.length_insertionSort]
      exact hlen
    rw [exactPercSum, hall]
    rw [((sortedThemeCounts_perm entries).map _).sum_eq]
    exact sum_exact_all entries hne

/-- Witness for the amended C4 theorem: the exactly-100 arm on a two-theme
batch and the empty-table arm on a no-hit batch. -/
theorem claim_C4_amended_witness :
    themeCounts ["work work friend"] ≠ [] ∧
    (themeCounts ["work work friend"]).length ≤ 5 ∧
    exactPercSum ["work work friend"] = 100 ∧
    themeCounts [""] = [] ∧
    extract_themes [""] = [] :=
  ⟨by decide, by decide,
   (claim_C4_amended_theme_extraction ["work work friend"]).2.2.2.2.2
     (by decide) (by decide),
   by decide,
   (claim_C4_amended_theme_extraction [""]).2.2.2.1 (by decide)⟩

end Reflect
